import Mathlib

/-!
Verification of the ZenSVI street-view download pipeline
(`src/zensvi/download/streetview_downloader.py`,
`src/streetscope/download/streetview_downloader.py`,
`src/zensvi/download/mapillary/models/geojson.py`).

The Python code is shallowly embedded: dataframes become lists of structure
values, dataframe columns become structure fields, Python strings become
`String` (when only equality is used) or `List Char` (when the code inspects
characters), and network calls become function parameters or explicit result
lists.  Machine-level floating point does not occur in any verified claim:
the coordinate values that the claims mention are only moved and compared for
equality, so they are modelled as exact integers.
-/

namespace ZenSVI

/-! ## Python scalar values

`PyVal` models a Python value that is either an `int` or a `str`.  Python's
`==` (and hence `set` membership and `pandas.Series.isin`) never identifies an
`int` with a `str`, which the derived `DecidableEq` reproduces. -/

inductive PyVal where
  | int (n : Int) : PyVal
  | str (s : String) : PyVal
deriving DecidableEq, Repr

/-! ## Character and date helpers

`parseYmd` reproduces the acceptance behaviour of CPython's
`datetime.datetime.strptime(s, "%Y-%m-%d")` as used by
`GSVDownloader._filter_pids_date` and `MLYDownloader._filter_pids_date`:
the format compiles to the regular expression
`(\d\d\d\d)-(1[0-2]|0[1-9]|[1-9])-(3[01]|[12]\d|0[1-9]|[1-9])` which must
consume the whole string, and the matched fields must then form a valid
proleptic-Gregorian calendar date with year at least 1
(otherwise `datetime` raises `ValueError`). -/

def asciiDigit (c : Char) : Bool := 48 ≤ c.toNat && c.toNat ≤ 57

def fieldNat (cs : List Char) : Nat :=
  cs.foldl (fun a c => a * 10 + (c.toNat - 48)) 0

/-- Split a character list at every dash, mirroring how the strptime format
string `%Y-%m-%d` fixes the literal separators. -/
def splitDash : List Char → List (List Char)
  | [] => [[]]
  | c :: cs =>
    if c = '-' then [] :: splitDash cs
    else
      match splitDash cs with
      | [] => [[c]]
      | f :: fs => (c :: f) :: fs

def isLeap (y : Nat) : Bool := y % 4 == 0 && (y % 100 != 0 || y % 400 == 0)

def daysInMonth (y m : Nat) : Nat :=
  if m == 2 then (if isLeap y then 29 else 28)
  else if m == 4 || m == 6 || m == 9 || m == 11 then 30
  else 31

/-- A calendar date `(year, month, day)`. -/
abbrev Ymd := Nat × Nat × Nat

def parseYmd (cs : List Char) : Option Ymd :=
  match splitDash cs with
  | [ys, ms, ds] =>
    if ys.all asciiDigit && (ys.length == 4) &&
       ms.all asciiDigit && (ms.length == 1 || ms.length == 2) &&
       ds.all asciiDigit && (ds.length == 1 || ds.length == 2) then
      if 1 ≤ fieldNat ys ∧ 1 ≤ fieldNat ms ∧ fieldNat ms ≤ 12 ∧
         1 ≤ fieldNat ds ∧ fieldNat ds ≤ daysInMonth (fieldNat ys) (fieldNat ms) then
        some (fieldNat ys, fieldNat ms, fieldNat ds)
      else none
    else none
  | _ => none

def parseDate (s : String) : Option Ymd := parseYmd s.data

/-- Days from 1970-01-01 (proleptic Gregorian), the standard civil-days
computation; defined for years at least 1, which `parseYmd` guarantees. -/
def civilDays (y m d : Nat) : Nat :=
  let yAdj := if m ≤ 2 then y - 1 else y
  let era := yAdj / 400
  let yoe := yAdj - era * 400
  let mp := (m + 9) % 12
  let doy := (153 * mp + 2) / 5 + d - 1
  let doe := yoe * 365 + yoe / 4 - yoe / 100 + doy
  era * 146097 + doe

/-- Milliseconds since the Unix epoch of midnight on a calendar date; this is
the instant that both `pandas.to_datetime` and `datetime.datetime` denote for
that date, so chronological comparison of the code's timestamps coincides
with integer comparison of these values. -/
def epochMs (d : Ymd) : Int :=
  ((civilDays d.1 d.2.1 d.2.2 : Int) - 719468) * 86400000

/-- Modelled from the spec: a string in ISO `YYYY-MM-DD` form, i.e. exactly
four digits, a dash, two digits, a dash, two digits.  Used only to state what
the spec calls a well-formed date input. -/
def isoShape (s : String) : Bool :=
  match s.data with
  | [y1, y2, y3, y4, h1, m1, m2, h2, d1, d2] =>
    asciiDigit y1 && asciiDigit y2 && asciiDigit y3 && asciiDigit y4 &&
    (h1 == '-') && asciiDigit m1 && asciiDigit m2 &&
    (h2 == '-') && asciiDigit d1 && asciiDigit d2
  | _ => false

/-! ## Date filtering (`_filter_pids_date`, C2 and C3)

`MLYDownloader._filter_pids_date` builds a datetime column from the
`captured_at` milliseconds, parses `start_date` / `end_date` with strptime
(raising `ValueError` on failure), then keeps rows with
`date >= start_date` and then rows with `date <= end_date`.
`GSVDownloader._filter_pids_date` is identical except that the datetime
column is built from the `year` and `month` columns via `to_datetime` with
format `%Y-%m`, i.e. the first day of that month. -/

structure MlyUrlRow where
  id : Int
  url : String
  captured_at : Int
deriving DecidableEq, Repr

structure GsvPidRow where
  panoid : String
  year : Nat
  month : Nat
deriving DecidableEq, Repr

def parseStart (s : Option String) : Except String (Option Ymd) :=
  match s with
  | none => Except.ok none
  | some str =>
    match parseDate str with
    | some d => Except.ok (some d)
    | none => Except.error "Incorrect start_date format, should be YYYY-MM-DD"

def parseEnd (e : Option String) : Except String (Option Ymd) :=
  match e with
  | none => Except.ok none
  | some str =>
    match parseDate str with
    | some d => Except.ok (some d)
    | none => Except.error "Incorrect end_date format, should be YYYY-MM-DD"

def filterStartMly (rows : List MlyUrlRow) : Option Ymd → List MlyUrlRow
  | none => rows
  | some d => rows.filter (fun r => decide (epochMs d ≤ r.captured_at))

def filterEndMly (rows : List MlyUrlRow) : Option Ymd → List MlyUrlRow
  | none => rows
  | some d => rows.filter (fun r => decide (r.captured_at ≤ epochMs d))

def filter_pids_date_mly (rows : List MlyUrlRow) (s e : Option String) :
    Except String (List MlyUrlRow) :=
  match parseStart s with
  | Except.error msg => Except.error msg
  | Except.ok sd =>
    match parseEnd e with
    | Except.error msg => Except.error msg
    | Except.ok ed => Except.ok (filterEndMly (filterStartMly rows sd) ed)

/-- The GSV capture date: `to_datetime(f"{year}-{month}", format="%Y-%m")`
denotes midnight on the first day of that month. -/
def gsvDateMs (r : GsvPidRow) : Int := epochMs (r.year, r.month, 1)

def filterStartGsv (rows : List GsvPidRow) : Option Ymd → List GsvPidRow
  | none => rows
  | some d => rows.filter (fun r => decide (epochMs d ≤ gsvDateMs r))

def filterEndGsv (rows : List GsvPidRow) : Option Ymd → List GsvPidRow
  | none => rows
  | some d => rows.filter (fun r => decide (gsvDateMs r ≤ epochMs d))

def filter_pids_date_gsv (rows : List GsvPidRow) (s e : Option String) :
    Except String (List GsvPidRow) :=
  match parseStart s with
  | Except.error msg => Except.error msg
  | Except.ok sd =>
    match parseEnd e with
    | Except.error msg => Except.error msg
    | Except.ok ed => Except.ok (filterEndGsv (filterStartGsv rows sd) ed)

/-! ## Discovery finalization (`_get_pids_from_df`, C1)

After the batch loop both downloaders concatenate all checkpoint shards (plus
the retry shard), drop the `lat_lon_id` column, and call
`drop_duplicates(subset=['panoid'] + id_columns)` (GSV) respectively
`drop_duplicates(subset=['id'] + id_columns)` (Mapillary); pandas'
`drop_duplicates` keeps the first occurrence of each key. -/

structure RawPidRow where
  panoid : String
  idvals : List String
  lat_lon_id : Nat
  payload : List String
deriving DecidableEq, Repr

structure PidRow where
  panoid : String
  idvals : List String
  payload : List String
deriving DecidableEq, Repr

def dropLatLonId (r : RawPidRow) : PidRow := ⟨r.panoid, r.idvals, r.payload⟩

def pidKey (r : PidRow) : String × List String := (r.panoid, r.idvals)

/-- `pandas.DataFrame.drop_duplicates` with a key subset and the default
`keep='first'`: a row survives iff its key has not occurred earlier. -/
def dedupFirst {α κ : Type} [DecidableEq κ] (key : α → κ) :
    List α → List κ → List α
  | [], _ => []
  | a :: l, seen =>
    if key a ∈ seen then dedupFirst key l seen
    else a :: dedupFirst key l (key a :: seen)

def finalize_pids_raw (shards : List (List RawPidRow)) : List PidRow :=
  dedupFirst pidKey ((shards.flatten).map dropLatLonId) []

/-! ## Attaching query-point data to discovered records
(`_get_pids_from_df` worker / collector, C4)

The GSV worker returns `lat_lon_id, (input_longitude, input_latitude),
results, id_dict` and its collector destructures in the same order.  The
Mapillary worker returns `lat_lon_id, (input_latitude, input_longitude),
results, id_dict` but its collector destructures the pair as
`(input_longitude, input_latitude)`; both are embedded literally. -/

structure PointRow where
  latitude : Int
  longitude : Int
  lat_lon_id : Nat
  idvals : List (String × String)
deriving DecidableEq, Repr

structure GsvRecord where
  panoid : String
  input_latitude : Option Int
  input_longitude : Option Int
  lat_lon_id : Option Nat
  idvals : List (String × String)
deriving DecidableEq, Repr

structure MlyRecord where
  mid : Int
  input_latitude : Option Int
  input_longitude : Option Int
  lat_lon_id : Option Nat
  idvals : List (String × String)
deriving DecidableEq, Repr

/-- One worker result: `(lat_lon_id, coordinate pair, records, id_dict)`.
The provider response is passed in as `results` (network is external). -/
def gsv_worker (row : PointRow) (results : List GsvRecord) :
    Nat × (Int × Int) × List GsvRecord × List (String × String) :=
  (row.lat_lon_id, (row.longitude, row.latitude), results, row.idvals)

/-- GSV collector, destructuring
`lat_lon_id, (input_longitude, input_latitude), row_results, id_dict`.
The provider records carry none of the attached keys, so `result.update`
amounts to setting the id-column values. -/
def gsv_collect
    (w : Nat × (Int × Int) × List GsvRecord × List (String × String)) :
    List GsvRecord :=
  match w with
  | (lat_lon_id, (input_longitude, input_latitude), row_results, id_dict) =>
    row_results.map (fun r =>
      { r with
        input_latitude := some input_latitude
        input_longitude := some input_longitude
        lat_lon_id := some lat_lon_id
        idvals := id_dict })

def gsv_attach (row : PointRow) (results : List GsvRecord) : List GsvRecord :=
  gsv_collect (gsv_worker row results)

/-- Mapillary worker: returns the pair as `(input_latitude, input_longitude)`. -/
def mly_worker (row : PointRow) (results : List MlyRecord) :
    Nat × (Int × Int) × List MlyRecord × List (String × String) :=
  (row.lat_lon_id, (row.latitude, row.longitude), results, row.idvals)

/-- Mapillary collector: destructures the worker tuple as
`lat_lon_id, (input_longitude, input_latitude), row_results, id_dict`,
exactly as the source does. -/
def mly_collect
    (w : Nat × (Int × Int) × List MlyRecord × List (String × String)) :
    List MlyRecord :=
  match w with
  | (lat_lon_id, (input_longitude, input_latitude), row_results, id_dict) =>
    row_results.map (fun r =>
      { r with
        input_latitude := some input_latitude
        input_longitude := some input_longitude
        lat_lon_id := some lat_lon_id
        idvals := id_dict })

def mly_attach (row : PointRow) (results : List MlyRecord) : List MlyRecord :=
  mly_collect (mly_worker row results)

/-! ## Already-downloaded scan (C5)

`BaseDownloader._check_already` walks the output tree, takes
`name.split(".")[0]` of every file name, and returns
`list(set(all_panoids) - name_r)` (modelled as first-occurrence order).
`MLYDownloader._download_images_mly` instead globs `**/*.png`, takes
`Path(file).stem` (a `str`), and filters the `int64` id column with
`isin` against those strings. -/

def firstDotPart (cs : List Char) : List Char := cs.takeWhile (fun c => c != '.')

def pathBase (cs : List Char) : List Char :=
  (cs.reverse.takeWhile (fun c => c != '/')).reverse

/-- `pathlib.PurePath.stem`: the final path component without its last
suffix; a name whose only dot is the leading one keeps the whole name. -/
def stemPart (cs : List Char) : List Char :=
  let b := pathBase cs
  let pre := ((b.reverse.dropWhile (fun c => c != '.')).drop 1).reverse
  if '.' ∈ b ∧ pre ≠ [] then pre else b

def check_already (all_panoids : List (List Char))
    (filenames : List (List Char)) : List (List Char) :=
  let name_r := filenames.map firstDotPart
  (all_panoids.eraseDups).filter (fun p => decide (p ∉ name_r))

/-- The work-set subtraction of `_download_images_mly`: the stems are Python
`str` values while the id column holds Python `int` values. -/
def mly_remaining (ids : List Int) (filepaths : List (List Char)) : List Int :=
  let downloaded_ids : List PyVal :=
    filepaths.map (fun f => PyVal.str (String.mk (stemPart f)))
  ids.filter (fun i => decide (PyVal.int i ∉ downloaded_ids))

/-! ## GSV metadata augmentation resume (`_augment_metadata`, C6)

On resume the code concatenates the existing shards with `ignore_index=True`
(so their index is `RangeIndex(total)`), takes `index.unique()`, and drops
the input rows whose label is in that range; the input table read back from
`cache/pids_raw.csv` carries `RangeIndex(len)`.  Remaining rows are processed
in fixed-size batches, each batch shard holding the augmented form of its
rows, and finalization concatenates all shards.  The metadata fetched for a
row is abstracted as a function `aug` of the row. -/

def labelFrom {α : Type} (n : Nat) : List α → List (Nat × α)
  | [] => []
  | a :: l => (n, a) :: labelFrom (n + 1) l

def completedIndices {β : Type} (shards : List (List β)) : List Nat :=
  List.range shards.flatten.length

def augmentRemaining {α β : Type} (labeled : List (Nat × α))
    (shards : List (List β)) : List (Nat × α) :=
  labeled.filter (fun p => decide (p.1 ∉ completedIndices shards))

def chunksAux {α : Type} : Nat → Nat → List α → List (List α)
  | _, _, [] => []
  | 0, _, l => [l]
  | Nat.succ f, bs, l => (l.take bs) :: chunksAux f bs (l.drop bs)

/-- Fixed-size batching, as `df.iloc[i*batch_size:(i+1)*batch_size]` for
`i = 0, 1, …`; the fuel equals the list length so the recursion is
structural. -/
def chunks {α : Type} (bs : Nat) (l : List α) : List (List α) :=
  chunksAux l.length bs l

def augmentFinalize {α β : Type} (oldShards : List (List β))
    (newRows : List α) (aug : α → β) (bs : Nat) : List β :=
  (oldShards ++ (chunks bs newRows).map (fun b => b.map aug)).flatten

/-! ## Mapillary image-fetch batching (`_download_images_mly`, C7)

`num_batches` is the ceiling of `len(urls_df) / batch_size`; the loop runs
`for i in range(start_batch_number, start_batch_number + num_batches)`,
writes into `batch_{i+1}`, and slices
`urls_df.iloc[i*batch_size:(i+1)*batch_size]` — with the same `i`. -/

def mly_image_batches {α : Type} (rows : List α)
    (batch_size start_batch_number : Nat) : List (Nat × List α) :=
  let num_batches := (rows.length + batch_size - 1) / batch_size
  (List.range' start_batch_number num_batches).map
    (fun i => (i + 1, (rows.drop (i * batch_size)).take batch_size))

/-! ## Skipping discovery on resume (`download_svi`, C8)

`GSVDownloader.download_svi` enters `_get_pids` only when no `path_pid` was
given, `cache/pids_augemented.csv` does not exist, and not
(`gsv_pids.csv` exists and `update_pids` is false).
`MLYDownloader.download_svi` enters `_get_pids` when no `path_pid` was given
and not (`mly_pids.csv` exists and `update_pids` is false), or when a
`path_pid` was given but does not exist. -/

def gsv_discovery_entered (path_pid_given cache_augmented_exists
    pid_file_exists update_pids : Bool) : Bool :=
  if !path_pid_given && !cache_augmented_exists then
    if pid_file_exists && !update_pids then false else true
  else false

def mly_discovery_entered (path_pid_given pid_file_exists
    update_pids : Bool) : Bool :=
  if !path_pid_given then
    if pid_file_exists && !update_pids then false else true
  else
    if pid_file_exists then false else true

/-! ## CSV column-name standardization (`standardize_column_names`, C9)

The streetscope helper lowercases every column name and renames recognized
longitude and latitude variants to the canonical names.  Column names are
modelled as lists of Unicode code points (`str.lower` on the ASCII names at
hand lowercases exactly the codes 65–90). -/

def codes (s : String) : List Nat := s.data.map Char.toNat

def lowerCode (n : Nat) : Nat := if 65 ≤ n ∧ n ≤ 90 then n + 32 else n

def lowerName (c : List Nat) : List Nat := c.map lowerCode

def longitudeVariants : List (List Nat) :=
  [codes "longitude", codes "long", codes "lon", codes "lng", codes "x"]

def latitudeVariants : List (List Nat) :=
  [codes "latitude", codes "lat", codes "lt", codes "y"]

def stdName (c : List Nat) : List Nat :=
  let l := lowerName c
  if l ∈ longitudeVariants then codes "longitude"
  else if l ∈ latitudeVariants then codes "latitude"
  else l

def standardize_column_names (cols : List (List Nat)) : List (List Nat) :=
  cols.map stdName

/-! ## GeoJSON feature appending (`GeoJSON.append_feature`, C10)

`Feature.__eq__` compares the type, the coordinate pair, and `captured_at`;
other properties are ignored.  `GeoJSON` keeps a list `features` and a set
`features_set` (initialized as `set(features)`, whose membership relation is
existence of an equal element, so the list itself represents it).
`append_feature` appends to both exactly when no equal feature is in the
set. -/

structure Feature where
  ftype : String
  lat : Int
  lon : Int
  captured_at : Int
  props : List (String × Int)
deriving DecidableEq, Repr

def featureEq (f g : Feature) : Bool :=
  decide (f.ftype = g.ftype) &&
  decide ((f.lat, f.lon) = (g.lat, g.lon)) &&
  decide (f.captured_at = g.captured_at)

def setMem (s : List Feature) (f : Feature) : Bool :=
  s.any (fun g => featureEq g f)

structure GeoJSONState where
  features : List Feature
  features_set : List Feature
deriving DecidableEq, Repr

/-- `GeoJSON.__init__`: `features_set = set(self.features)`; as a membership
structure the feature list itself represents that set. -/
def geojson_init (fs : List Feature) : GeoJSONState := ⟨fs, fs⟩

def append_feature (st : GeoJSONState) (f : Feature) : GeoJSONState :=
  if setMem st.features_set f then st
  else ⟨st.features ++ [f], st.features_set ++ [f]⟩

/-- The invariant relating the mirror set to the feature list: both have the
same members up to `Feature.__eq__`.  It holds for every constructed
`GeoJSON` and is preserved by `append_feature`. -/
def setInv (st : GeoJSONState) : Prop :=
  ∀ f, setMem st.features_set f = setMem st.features f

/-- A sample feature used to instantiate the `append_feature` theorem. -/
def sampleFeature : Feature := ⟨"Feature", 1, 2, 3, []⟩

def sampleState : GeoJSONState := geojson_init [sampleFeature]

/-- The Mapillary row captured exactly at midnight 2020-01-01 UTC. -/
def mlyRowAtStart : MlyUrlRow := ⟨1, "u1", 1577836800000⟩

/-- The Mapillary row captured one millisecond after midnight 2020-12-31 UTC. -/
def mlyRowPastEnd : MlyUrlRow := ⟨2, "u2", 1609372800001⟩

def gsvRowMid : GsvPidRow := ⟨"p", 2020, 6⟩

/-! ## Helper lemmas -/

theorem dedupFirst_not_seen {α κ : Type} [DecidableEq κ] (key : α → κ) :
    ∀ (l : List α) (seen : List κ) (a : α),
      a ∈ dedupFirst key l seen → key a ∉ seen := by
  intro l
  induction l with
  | nil => intro seen a ha; simp [dedupFirst] at ha
  | cons b l ih =>
    intro seen a ha
    by_cases hb : key b ∈ seen
    · rw [dedupFirst, if_pos hb] at ha
      exact ih seen a ha
    · rw [dedupFirst, if_neg hb] at ha
      rw [List.mem_cons] at ha
      rcases ha with ha | ha
      · exact ha ▸ hb
      · have := ih (key b :: seen) a ha
        intro hs
        exact this (List.mem_cons_of_mem _ hs)

theorem dedupFirst_pairwise {α κ : Type} [DecidableEq κ] (key : α → κ) :
    ∀ (l : List α) (seen : List κ),
      List.Pairwise (fun a b => key a ≠ key b) (dedupFirst key l seen) := by
  intro l
  induction l with
  | nil => intro seen; simp [dedupFirst]
  | cons b l ih =>
    intro seen
    by_cases hb : key b ∈ seen
    · rw [dedupFirst, if_pos hb]; exact ih seen
    · rw [dedupFirst, if_neg hb]
      refine List.Pairwise.cons ?_ (ih (key b :: seen))
      intro a ha
      have := dedupFirst_not_seen key l (key b :: seen) a ha
      intro he
      exact this (he ▸ List.mem_cons_self _ _)

theorem dedupFirst_find {α κ : Type} [DecidableEq κ] (key : α → κ) :
    ∀ (l : List α) (seen : List κ) (k : κ), k ∉ seen →
      (dedupFirst key l seen).find? (fun a => decide (key a = k)) =
        l.find? (fun a => decide (key a = k)) := by
  intro l
  induction l with
  | nil => intro seen k _; rfl
  | cons b l ih =>
    intro seen k hk
    by_cases hb : key b ∈ seen
    · have hne : (decide (key b = k)) = false := by
        simp only [decide_eq_false_iff_not]
        intro he
        exact hk (he ▸ hb)
      rw [dedupFirst, if_pos hb, List.find?_cons, hne, ih seen k hk]
    · rw [dedupFirst, if_neg hb]
      by_cases he : key b = k
      · have hp : (decide (key b = k)) = true := by simpa using he
        rw [List.find?_cons, hp, List.find?_cons, hp]
      · have hp : (decide (key b = k)) = false := by simpa using he
        have hk2 : k ∉ key b :: seen := by
          intro hm
          rw [List.mem_cons] at hm
          rcases hm with hm | hm
          · exact he hm.symm
          · exact hk hm
        rw [List.find?_cons, hp, List.find?_cons, hp,
          ih (key b :: seen) k hk2]

/-- Claim C1: after discovery finalization the written `pids_raw` table has
no two rows sharing the `(pano_id, user id columns)` key, and for every key
the surviving row is the first occurrence of that key in the order in which
the shards were concatenated. -/
theorem c1_pids_raw_dedup_first (shards : List (List RawPidRow)) :
    List.Pairwise (fun a b => pidKey a ≠ pidKey b) (finalize_pids_raw shards) ∧
    ∀ k : String × List String,
      (finalize_pids_raw shards).find? (fun r => decide (pidKey r = k)) =
        ((shards.flatten).map dropLatLonId).find? (fun r => decide (pidKey r = k)) := by
  constructor
  · exact dedupFirst_pairwise pidKey _ []
  · intro k
    exact dedupFirst_find pidKey _ [] k (List.not_mem_nil k)

/-- Claim C2: with parseable start and end dates, both date filters keep
exactly the rows whose capture instant lies in the closed interval between
the two dates; Mapillary compares the `captured_at` milliseconds and GSV the
first-of-month instant of its `year`/`month` columns. -/
theorem c2_date_filter_closed_interval
    (mrows : List MlyUrlRow) (grows : List GsvPidRow) (s e : String)
    (sd ed : Ymd) (hs : parseDate s = some sd) (he : parseDate e = some ed) :
    (∃ L, filter_pids_date_mly mrows (some s) (some e) = Except.ok L ∧
      ∀ r, r ∈ L ↔ r ∈ mrows ∧
        epochMs sd ≤ r.captured_at ∧ r.captured_at ≤ epochMs ed) ∧
    (∃ L, filter_pids_date_gsv grows (some s) (some e) = Except.ok L ∧
      ∀ r, r ∈ L ↔ r ∈ grows ∧
        epochMs sd ≤ gsvDateMs r ∧ gsvDateMs r ≤ epochMs ed) := by
  constructor
  · refine ⟨filterEndMly (filterStartMly mrows (some sd)) (some ed), ?_, ?_⟩
    · rw [filter_pids_date_mly, parseStart, hs, parseEnd, he]
    · intro r
      simp only [filterStartMly, filterEndMly, List.mem_filter,
        decide_eq_true_eq]
      exact and_assoc
  · refine ⟨filterEndGsv (filterStartGsv grows (some sd)) (some ed), ?_, ?_⟩
    · rw [filter_pids_date_gsv, parseStart, hs, parseEnd, he]
    · intro r
      simp only [filterStartGsv, filterEndGsv, List.mem_filter,
        decide_eq_true_eq]
      exact and_assoc

theorem c2_date_filter_closed_interval_witness :
    (∃ L, filter_pids_date_mly [mlyRowAtStart, mlyRowPastEnd]
        (some "2020-01-01") (some "2020-12-31") = Except.ok L ∧
      ∀ r, r ∈ L ↔ r ∈ [mlyRowAtStart, mlyRowPastEnd] ∧
        epochMs (2020, 1, 1) ≤ r.captured_at ∧
        r.captured_at ≤ epochMs (2020, 12, 31)) ∧
    (∃ L, filter_pids_date_gsv [gsvRowMid]
        (some "2020-01-01") (some "2020-12-31") = Except.ok L ∧
      ∀ r, r ∈ L ↔ r ∈ [gsvRowMid] ∧
        epochMs (2020, 1, 1) ≤ gsvDateMs r ∧
        gsvDateMs r ≤ epochMs (2020, 12, 31)) :=
  c2_date_filter_closed_interval [mlyRowAtStart, mlyRowPastEnd] [gsvRowMid]
    "2020-01-01" "2020-12-31" (2020, 1, 1) (2020, 12, 31)
    (by decide) (by decide)

/-- Claim C3 counterexample: the string `2020-1-1` is not in ISO
`YYYY-MM-DD` form, yet neither date filter raises an error on it —
`strptime` accepts non-zero-padded months and days. -/
theorem c3_counterexample_nonpadded :
    isoShape "2020-1-1" = false ∧
    filter_pids_date_mly [] (some "2020-1-1") none = Except.ok [] ∧
    filter_pids_date_gsv [] (some "2020-1-1") none = Except.ok [] :=
  ⟨by decide, rfl, rfl⟩

/-- Claim C3 as amended: the date filters raise the `ValueError` exactly when
`strptime("%Y-%m-%d")` cannot parse the string; `"not-a-date"` is rejected
and every well-formed ISO date is accepted, but acceptance is strptime's,
which also admits non-zero-padded variants such as `2020-1-1`. -/
theorem c3_invalid_date_error :
    (∀ (rows : List MlyUrlRow) (e : Option String) (s : String),
      parseDate s = none →
      filter_pids_date_mly rows (some s) e =
        Except.error "Incorrect start_date format, should be YYYY-MM-DD") ∧
    (∀ (rows : List GsvPidRow) (e : Option String) (s : String),
      parseDate s = none →
      filter_pids_date_gsv rows (some s) e =
        Except.error "Incorrect start_date format, should be YYYY-MM-DD") ∧
    (∀ (rows : List MlyUrlRow) (e : String), parseDate e = none →
      filter_pids_date_mly rows none (some e) =
        Except.error "Incorrect end_date format, should be YYYY-MM-DD") ∧
    (∀ (rows : List GsvPidRow) (e : String), parseDate e = none →
      filter_pids_date_gsv rows none (some e) =
        Except.error "Incorrect end_date format, should be YYYY-MM-DD") ∧
    (∀ (rows : List MlyUrlRow) (s e : String) (sd ed : Ymd),
      parseDate s = some sd → parseDate e = some ed →
      ∃ L, filter_pids_date_mly rows (some s) (some e) = Except.ok L) ∧
    (∀ (rows : List GsvPidRow) (s e : String) (sd ed : Ymd),
      parseDate s = some sd → parseDate e = some ed →
      ∃ L, filter_pids_date_gsv rows (some s) (some e) = Except.ok L) ∧
    parseDate "not-a-date" = none ∧
    parseDate "2020-01-01" = some (2020, 1, 1) := by
  refine ⟨?_, ?_, ?_, ?_, ?_, ?_, by decide, by decide⟩
  · intro rows e s hs
    rw [filter_pids_date_mly, parseStart, hs]
  · intro rows e s hs
    rw [filter_pids_date_gsv, parseStart, hs]
  · intro rows e hegsv
    rw [filter_pids_date_mly, parseStart, parseEnd, hegsv]
  · intro rows e hegsv
    rw [filter_pids_date_gsv, parseStart, parseEnd, hegsv]
  · intro rows s e sd ed hs hegsv
    exact ⟨_, by rw [filter_pids_date_mly, parseStart, hs, parseEnd, hegsv]⟩
  · intro rows s e sd ed hs hegsv
    exact ⟨_, by rw [filter_pids_date_gsv, parseStart, hs, parseEnd, hegsv]⟩

theorem c3_invalid_date_error_witness :
    filter_pids_date_mly [] (some "not-a-date") none =
      Except.error "Incorrect start_date format, should be YYYY-MM-DD" :=
  c3_invalid_date_error.1 [] none "not-a-date" (by decide)

/-- Claim C4 evaluated: for the query point with latitude 1, longitude 2,
`lat_lon_id` 7 and one id column, the GSV collector attaches
`input_latitude = 1` and `input_longitude = 2` as claimed, but the Mapillary
collector attaches `input_latitude = 2` (the point's longitude) and
`input_longitude = 1` (the point's latitude): the Mapillary worker returns
the pair `(input_latitude, input_longitude)` while its collector
destructures it as `(input_longitude, input_latitude)`. -/
theorem c4_attach_eval :
    (gsv_attach ⟨1, 2, 7, [("osmid", "42")]⟩ [⟨"p0", none, none, none, []⟩]).map
        (fun r => (r.input_latitude, r.input_longitude, r.lat_lon_id, r.idvals)) =
      [(some 1, some 2, some 7, [("osmid", "42")])] ∧
    (mly_attach ⟨1, 2, 7, [("osmid", "42")]⟩ [⟨555, none, none, none, []⟩]).map
        (fun r => (r.input_latitude, r.input_longitude, r.lat_lon_id, r.idvals)) =
      [(some 2, some 1, some 7, [("osmid", "42")])] :=
  And.intro (by decide) (by decide)

/-- Claim C5 evaluated: the GSV scan does skip a pano whose file is present,
but the Mapillary image fetch does not — the stem of `batch_1/123.png` is the
string `123` while the id column holds the integer 123, and Python never
equates the two, so pano 123 stays in the work set and is fetched again. -/
theorem c5_rescan_eval :
    check_already ["abc".data] ["abc.jpg".data] = [] ∧
    stemPart ("batch_1/123.png".data) = "123".data ∧
    mly_remaining [123] ["batch_1/123.png".data] = [123] := by
  decide

/-- Claim C7 evaluated: with three remaining rows, `batch_size = 2` and one
existing batch directory (`start_batch_number = 1`), the loop writes batch 2
with only the third row and an empty batch 3 — the first two rows are
assigned to no batch, because the continued batch counter is reused as the
dataframe slice index.  With no existing batch the slices partition the
rows. -/
theorem c7_batch_slices_eval :
    mly_image_batches [10, 20, 30] 2 1 = [(2, [30]), (3, [])] ∧
    ((mly_image_batches [10, 20, 30] 2 1).map Prod.snd).flatten = [30] ∧
    mly_image_batches [10, 20, 30] 2 0 = [(1, [10, 20]), (2, [30])] := by
  decide

/-- Claim C8: whenever the final pid file exists and `update_pids` is false,
neither downloader enters the panorama ID discovery stage, for every state of
the remaining flags. -/
theorem c8_no_discovery_on_resume :
    ∀ path_pid_given cache_augmented_exists : Bool,
      gsv_discovery_entered path_pid_given cache_augmented_exists true false =
        false ∧
      mly_discovery_entered path_pid_given true false = false := by
  decide

theorem labelFrom_map_snd {α : Type} :
    ∀ (n : Nat) (l : List α), (labelFrom n l).map Prod.snd = l := by
  intro n l
  induction l generalizing n with
  | nil => rfl
  | cons a l ih => simp [labelFrom, ih]

theorem labelFrom_filter_ge {α : Type} (t : Nat) :
    ∀ (l : List α) (n : Nat), t ≤ n →
      (labelFrom n l).filter (fun p => decide (p.1 ∉ List.range t)) =
        labelFrom n l := by
  intro l
  induction l with
  | nil => intro n _; rfl
  | cons a l ih =>
    intro n hn
    have hp : (decide (n ∉ List.range t)) = true := by
      simp only [decide_eq_true_eq, List.mem_range]
      omega
    rw [labelFrom, List.filter_cons]
    simp only [hp, if_true]
    rw [ih (n + 1) (by omega)]

theorem labelFrom_filter_drop {α : Type} (t : Nat) :
    ∀ (l : List α) (n : Nat), n ≤ t →
      (labelFrom n l).filter (fun p => decide (p.1 ∉ List.range t)) =
        labelFrom t (l.drop (t - n)) := by
  intro l
  induction l with
  | nil => intro n _; simp [labelFrom]
  | cons a l ih =>
    intro n hn
    rcases Nat.eq_or_lt_of_le hn with heq | hlt
    · subst heq
      have hp : (decide (n ∉ List.range n)) = true := by
        simp only [decide_eq_true_eq, List.mem_range]
        omega
      rw [labelFrom, List.filter_cons]
      simp only [hp, if_true]
      rw [labelFrom_filter_ge n l (n + 1) (by omega)]
      simp [labelFrom]
    · have hp : (decide (n ∉ List.range t)) = false := by
        simp only [decide_eq_false_iff_not, Decidable.not_not, List.mem_range]
        omega
      rw [labelFrom, List.filter_cons]
      simp only [hp, Bool.false_eq_true, if_false]
      rw [ih (n + 1) (by omega)]
      have hsub : t - n = (t - (n + 1)) + 1 := by omega
      rw [hsub, List.drop_succ_cons]

theorem chunksAux_flatten {α : Type} (bs : Nat) (hbs : 1 ≤ bs) :
    ∀ (fuel : Nat) (l : List α), l.length ≤ fuel →
      (chunksAux fuel bs l).flatten = l := by
  intro fuel
  induction fuel with
  | zero =>
    intro l hl
    have : l = [] := List.eq_nil_of_length_eq_zero (Nat.le_zero.mp hl)
    subst this
    rfl
  | succ f ih =>
    intro l hl
    cases l with
    | nil => rfl
    | cons a l =>
      have hstep : chunksAux (f + 1) bs (a :: l) =
          ((a :: l).take bs) :: chunksAux f bs ((a :: l).drop bs) := rfl
      rw [hstep, List.flatten_cons]
      have hlen2 : ((a :: l).drop bs).length ≤ f := by
        simp only [List.length_drop, List.length_cons]
        simp only [List.length_cons] at hl
        omega
      rw [ih ((a :: l).drop bs) hlen2]
      exact List.take_append_drop bs (a :: l)

theorem chunks_flatten {α : Type} (bs : Nat) (hbs : 1 ≤ bs) (l : List α) :
    (chunks bs l).flatten = l :=
  chunksAux_flatten bs hbs l.length l (Nat.le_refl _)

theorem flatten_map_map {α β : Type} (f : α → β) :
    ∀ L : List (List α),
      (L.map (fun b => b.map f)).flatten = L.flatten.map f := by
  intro L
  induction L with
  | nil => rfl
  | cons x L ih =>
    rw [List.map_cons, List.flatten_cons, List.flatten_cons, List.map_append,
      ih]

/-- Claim C6: on restart of GSV metadata augmentation, with the input table
carrying the fresh `RangeIndex` labels `0, 1, …` and the existing shards
recording the augmented forms of the first `k` input rows (which is what the
in-order batch loop of the previous run produced), the resume filter skips
exactly those `k` recorded rows — the remaining work is the rows labelled
`k, k+1, …` — and the finalized augmented table created by concatenating the
old shards with the new batch shards contains each input row exactly once. -/
theorem c6_augment_resume {α β : Type} (rows : List α) (aug : α → β)
    (oldShards : List (List β)) (k bs : Nat) (hbs : 1 ≤ bs)
    (hk : k ≤ rows.length)
    (hold : oldShards.flatten = (rows.take k).map aug) :
    augmentRemaining (labelFrom 0 rows) oldShards = labelFrom k (rows.drop k) ∧
    augmentFinalize oldShards
        ((augmentRemaining (labelFrom 0 rows) oldShards).map Prod.snd) aug bs =
      rows.map aug := by
  have hlen : oldShards.flatten.length = k := by
    rw [hold]
    simp only [List.length_map, List.length_take]
    omega
  have hrem : augmentRemaining (labelFrom 0 rows) oldShards =
      labelFrom k (rows.drop k) := by
    rw [augmentRemaining, completedIndices, hlen]
    have h0 := labelFrom_filter_drop k rows 0 (Nat.zero_le k)
    rw [Nat.sub_zero] at h0
    exact h0
  refine ⟨hrem, ?_⟩
  rw [hrem, labelFrom_map_snd, augmentFinalize, List.flatten_append, hold,
    flatten_map_map, chunks_flatten bs hbs, ← List.map_append,
    List.take_append_drop]

theorem c6_augment_resume_witness :
    augmentRemaining (labelFrom 0 [10, 20, 30]) [[11, 21]] =
      labelFrom 2 ([10, 20, 30].drop 2) ∧
    augmentFinalize [[11, 21]]
        ((augmentRemaining (labelFrom 0 [10, 20, 30]) [[11, 21]]).map Prod.snd)
        (fun n => n + 1) 1000 =
      [10, 20, 30].map (fun n => n + 1) :=
  c6_augment_resume [10, 20, 30] (fun n => n + 1) [[11, 21]] 2 1000
    (by decide) (by decide) (by decide)

theorem lowerCode_idem (n : Nat) : lowerCode (lowerCode n) = lowerCode n := by
  by_cases h : 65 ≤ n ∧ n ≤ 90
  · have h1 : lowerCode n = n + 32 := by simp [lowerCode, h.1, h.2]
    rw [h1, lowerCode, if_neg (by omega)]
  · have h1 : lowerCode n = n := by simp [lowerCode, h]
    rw [h1, h1]

theorem lowerName_idem (c : List Nat) :
    lowerName (lowerName c) = lowerName c := by
  rw [lowerName, lowerName, List.map_map]
  apply List.map_congr_left
  intro a _
  exact lowerCode_idem a

theorem stdName_idem (c : List Nat) : stdName (stdName c) = stdName c := by
  by_cases h1 : lowerName c ∈ longitudeVariants
  · have e1 : stdName c = codes "longitude" := by simp [stdName, h1]
    rw [e1]
    decide
  · by_cases h2 : lowerName c ∈ latitudeVariants
    · have e1 : stdName c = codes "latitude" := by simp [stdName, h1, h2]
      rw [e1]
      decide
    · have e1 : stdName c = lowerName c := by simp [stdName, h1, h2]
      rw [e1]
      rw [stdName, lowerName_idem]
      simp [h1, h2]

/-- Claim C9: column-name standardization maps every column whose lowercased
name is a recognized longitude variant to `longitude` and every recognized
latitude variant to `latitude` (so `LAT`, `lat`, `lt` and `y` all become
`latitude`, case-insensitively), keeps every other column under its
lowercased name, and applying the function twice equals applying it once. -/
theorem c9_standardize_idempotent :
    (∀ c : List Nat, lowerName c ∈ longitudeVariants →
      stdName c = codes "longitude") ∧
    (∀ c : List Nat, lowerName c ∈ latitudeVariants →
      stdName c = codes "latitude") ∧
    (∀ c : List Nat, lowerName c ∉ longitudeVariants →
      lowerName c ∉ latitudeVariants → stdName c = lowerName c) ∧
    (∀ cols : List (List Nat),
      standardize_column_names (standardize_column_names cols) =
        standardize_column_names cols) ∧
    standardize_column_names [codes "LAT", codes "lat", codes "lt", codes "y"] =
      [codes "latitude", codes "latitude", codes "latitude", codes "latitude"] := by
  refine ⟨?_, ?_, ?_, ?_, by decide⟩
  · intro c h1
    simp [stdName, h1]
  · intro c h1
    by_cases h0 : lowerName c ∈ longitudeVariants
    · exfalso
      simp only [longitudeVariants, List.mem_cons, List.not_mem_nil,
        or_false] at h0
      simp only [latitudeVariants, List.mem_cons, List.not_mem_nil,
        or_false] at h1
      rcases h0 with h | h | h | h | h <;> rcases h1 with g | g | g | g <;>
        exact absurd (h.symm.trans g) (by decide)
    · simp [stdName, h0, h1]
  · intro c h1 h2
    simp [stdName, h1, h2]
  · intro cols
    rw [standardize_column_names, standardize_column_names, List.map_map]
    apply List.map_congr_left
    intro c _
    exact stdName_idem c

theorem c9_standardize_idempotent_witness :
    stdName (codes "LAT") = codes "latitude" ∧
    stdName (codes "Foo") = lowerName (codes "Foo") :=
  ⟨c9_standardize_idempotent.2.1 (codes "LAT") (by decide),
   c9_standardize_idempotent.2.2.1 (codes "Foo") (by decide) (by decide)⟩

theorem featureEq_refl (f : Feature) : featureEq f f = true := by
  simp [featureEq]

theorem setMem_append_self (s : List Feature) (f : Feature) :
    setMem (s ++ [f]) f = true := by
  simp [setMem, List.any_append, featureEq_refl]

/-- Claim C10: under the invariant that the mirror set has the same members
as the feature list (true of every constructed `GeoJSON`), `append_feature`
leaves the state unchanged when a feature equal to the argument (per
`Feature.__eq__`) is already in the feature list, otherwise appends exactly
that one feature; appending the same feature twice equals appending it once,
and the invariant is preserved. -/
theorem c10_append_feature (st : GeoJSONState) (f : Feature)
    (hinv : setInv st) :
    ((∃ g ∈ st.features, featureEq g f = true) → append_feature st f = st) ∧
    ((¬ ∃ g ∈ st.features, featureEq g f = true) →
      (append_feature st f).features = st.features ++ [f]) ∧
    append_feature (append_feature st f) f = append_feature st f ∧
    setInv (append_feature st f) := by
  have hmem : setMem st.features_set f = setMem st.features f := hinv f
  have hex : setMem st.features f = true ↔
      ∃ g ∈ st.features, featureEq g f = true := by
    simp [setMem, List.any_eq_true]
  refine ⟨?_, ?_, ?_, ?_⟩
  · intro h
    have : setMem st.features_set f = true := by rw [hmem]; exact hex.mpr h
    simp [append_feature, this]
  · intro h
    have : setMem st.features_set f = false := by
      rw [hmem]
      exact Bool.eq_false_iff.mpr (fun hb => h (hex.mp hb))
    simp [append_feature, this]
  · by_cases hb : setMem st.features_set f = true
    · simp [append_feature, hb]
    · have hb' : setMem st.features_set f = false :=
        Bool.eq_false_iff.mpr hb
      simp only [append_feature, hb', Bool.false_eq_true, if_false]
      rw [if_pos]
      exact setMem_append_self st.features_set f
  · intro g
    by_cases hb : setMem st.features_set f = true
    · simp only [append_feature, hb, if_true]
      exact hinv g
    · have hb' : setMem st.features_set f = false :=
        Bool.eq_false_iff.mpr hb
      simp only [append_feature, hb', Bool.false_eq_true, if_false]
      have hg := hinv g
      simp only [setMem] at hg
      simp [setMem, List.any_append, hg]

theorem c10_append_feature_witness :
    ((∃ g ∈ sampleState.features, featureEq g sampleFeature = true) →
      append_feature sampleState sampleFeature = sampleState) ∧
    ((¬ ∃ g ∈ sampleState.features, featureEq g sampleFeature = true) →
      (append_feature sampleState sampleFeature).features =
        sampleState.features ++ [sampleFeature]) ∧
    append_feature (append_feature sampleState sampleFeature) sampleFeature =
      append_feature sampleState sampleFeature ∧
    setInv (append_feature sampleState sampleFeature) :=
  c10_append_feature sampleState sampleFeature (fun _ => rfl)

end ZenSVI

